import Mathlib

/-!
Verification of the service-worker todo application (src/sw.js).

The service worker is embedded shallowly:

* The IndexedDB-backed key-value store is modelled as a function
  `String → Option V`; a readwrite transaction that commits is modelled by
  returning the updated function, and a rejected operation by `Except.error`.
* JavaScript values that may be `undefined` are modelled with `Option`;
  template-literal interpolation of `undefined` produces the string
  "undefined" (`jsStr`).
* JavaScript objects whose fields may be absent (the spread
  `\x7b...todo, completed: true\x7d` applied to `undefined` yields an object with
  only a `completed` field) are modelled with `Option`-valued fields.
* `String.prototype.split` for a non-empty separator, together with the
  destructuring `const [head, tail] = s.split(sep)`, is modelled by
  `jsSplitTwo`: the part before the first occurrence of the separator
  (the whole string when the separator is absent) and, when a first
  occurrence exists, the part between the first and second occurrences
  (`none` models `undefined`).
* The nondeterministic `crypto.randomUUID()` is supplied as an explicit
  argument to `createTodo`.
-/

namespace SWTodo

/-- `const VERSION = "0.0.1";` (src/sw.js line 1). -/
def VERSION : String := "0.0.1"

/-- `const STATIC_CACHE_NAME = ...` — the template literal
`static-cache_$\x7bVERSION\x7d` (src/sw.js line 2). -/
def STATIC_CACHE_NAME : String := "static-cache_" ++ VERSION

/-- `const assets = ["/", "/index.html", "/main.js"];` (src/sw.js lines 15-19). -/
def assets : List String := ["/", "/index.html", "/main.js"]

/-- A value thrown by JavaScript code: the `TypeError` raised by
destructuring `undefined`, or a user exception carrying a message. -/
inductive JsError
  | typeError
  | thrown (message : String)
deriving DecidableEq

/-- Template-literal interpolation of a possibly-`undefined` string:
`undefined` prints as "undefined". -/
def jsStr : Option String → String
  | some s => s
  | none => "undefined"

/-- JavaScript truthiness of a possibly-absent boolean field
(`undefined` is falsy). -/
def jsTruthy : Option Bool → Bool
  | some b => b
  | none => false

/-- The `TodoItem` record (src/sw.js lines 116-121).  Fields are
`Option`-valued because a JavaScript object may lack a field
(see `completeTodo` applied to `undefined`, which yields an object with
only `completed`). -/
structure TodoItem where
  id : Option String
  title : Option String
  completed : Option Bool
deriving DecidableEq

/-- `completeTodo` (src/sw.js lines 143-148): `\x7b ...todo, completed: true \x7d`.
The argument may be `undefined` (the store's `get` result for a missing
key); spreading `undefined` contributes no fields, so the result then has
only `completed: true`.  The input record itself is left untouched (the
spread builds a fresh object). -/
def completeTodo (todo : Option TodoItem) : TodoItem :=
  match todo with
  | some t => { t with completed := some true }
  | none => { id := none, title := none, completed := some true }

/-- `createTodo` (src/sw.js lines 127-137).  The fresh identifier produced
by `self.crypto.randomUUID()` is passed in as the argument `id`. -/
def createTodo (id : String) (title : String) : String × TodoItem :=
  (id, { id := some id, title := some title, completed := some false })

/-- `set(key, value)` (src/sw.js lines 74-79): a readwrite transaction that
unconditionally upserts `value` under `key`; the committed store is the
updated map. -/
def set {V : Type} (key : String) (value : V) (store : String → Option V) :
    String → Option V :=
  fun k => if k = key then some value else store k

/-- `get(key)` (src/sw.js lines 81-83): a readonly transaction returning
the stored value, or `undefined` (`none`) for a missing key. -/
def get {V : Type} (key : String) (store : String → Option V) : Option V :=
  store key

/-- `del(key)` (src/sw.js lines 99-104): a readwrite transaction deleting
`key`; deleting an absent key commits unchanged. -/
def del {V : Type} (key : String) (store : String → Option V) :
    String → Option V :=
  fun k => if k = key then none else store k

/-- `update(key, updater)` (src/sw.js lines 85-97): one readwrite
transaction that reads `key`, applies `updater` to the result and writes
it back under the same key.  When `updater` throws (modelled by
`Except.error`), the `store.put` line is never reached and the promise is
rejected via `reject(err)`, so no write is committed: the store component
of the result is the input store.  When `updater` returns normally, the
result is put under `key` and the promise resolves on commit. -/
def update {V : Type} (key : String) (updater : Option V → Except JsError V)
    (store : String → Option V) :
    Except JsError Unit × (String → Option V) :=
  match updater (store key) with
  | Except.error e => (Except.error e, store)
  | Except.ok v => (Except.ok (), fun k => if k = key then some v else store k)

/-- The part of a character list before the first occurrence of the
(non-empty) separator `sep`, paired with the remainder after that
occurrence (`none` when `sep` does not occur).  This is the elementary
step of `String.prototype.split`. -/
def jsSplitFirstL (sep : List Char) : List Char → List Char × Option (List Char)
  | [] => if List.isPrefixOf sep [] then ([], some []) else ([], none)
  | c :: rest =>
    if List.isPrefixOf sep (c :: rest) then
      ([], some (List.drop sep.length (c :: rest)))
    else
      let p := jsSplitFirstL sep rest
      (c :: p.1, p.2)

/-- `const [head, tail] = s.split(sep)` for a non-empty separator:
`head` is the part of `s` before the first occurrence of `sep` (all of
`s` when `sep` is absent); `tail` is the second element of the split —
the part between the first and second occurrences, or everything after
the first occurrence when there is no second — and `undefined` (`none`)
when `sep` does not occur at all. -/
def jsSplitTwo (sep s : String) : String × Option String :=
  let p := jsSplitFirstL sep.data s.data
  match p.2 with
  | none => (String.mk p.1, none)
  | some rest => (String.mk p.1, some (String.mk (jsSplitFirstL sep.data rest).1))

/-- `list(id, title, completed)` (src/sw.js lines 182-190): the `<li>`
template literal, whitespace exactly as in the source.  The destructured
fields may be absent, in which case interpolation prints "undefined" and
an absent `completed` is falsy. -/
def list (id title : Option String) (completed : Option Bool) : String :=
  "\n    <li>\n      " ++
  (if jsTruthy completed then
    "<s>" ++ jsStr title ++ "</s> <a href=\"/delete?id=" ++ jsStr id ++
      "\">Delete</a>"
  else
    "<a href=\"/complete?id=" ++ jsStr id ++ "\">Complete</a> " ++ jsStr title ++
      " <a href=\"/delete?id=" ++ jsStr id ++ "\">Delete</a>") ++
  "\n    </li>\n  "

/-- `generateTodos(data)` (src/sw.js lines 196-205): the `<ul>` template
literal around `data.map(list).join("")`, whitespace exactly as in the
source. -/
def generateTodos (data : List TodoItem) : String :=
  "\n    <ul slot=\"todo-list\">\n      " ++
  String.join (data.map (fun t => list t.id t.title t.completed)) ++
  "\n    </ul>\n  "

/-- `const lazyBoundary = "<!-- lazy -->";` (src/sw.js line 217). -/
def lazyBoundary : String := "<!-- lazy -->"

/-- `spliceResponseWithData(cachedContent, data)` (src/sw.js lines
212-224).  `if (!data) return cachedContent;` — only an absent (`none`)
argument is falsy; an empty array is truthy and falls through.  Otherwise
`const [head, tail] = cachedContent.split(lazyBoundary)` and the template
literal re-wraps the pieces around `generateTodos(data)`; an absent
`tail` interpolates as "undefined". -/
def spliceResponseWithData (cachedContent : String)
    (data : Option (List TodoItem)) : String :=
  match data with
  | none => cachedContent
  | some d =>
    let ht := jsSplitTwo lazyBoundary cachedContent
    "\n    " ++ ht.1 ++ "\n    " ++ generateTodos d ++ "\n    " ++
      jsStr ht.2 ++ "\n  "

/-- `ENTITY_MAP` (src/sw.js lines 226-235): the eight HTML-significant
characters and their character references.  A character outside the map
yields `none`.  (Char codes: 34 = double quote, 39 = apostrophe,
96 = backtick.) -/
def ENTITY_MAP (c : Char) : Option String :=
  if c = '&' then some "&amp;"
  else if c = '<' then some "&lt;"
  else if c = '>' then some "&gt;"
  else if c = Char.ofNat 34 then some "&quot;"
  else if c = Char.ofNat 39 then some "&#39;"
  else if c = '/' then some "&#x2F;"
  else if c = Char.ofNat 96 then some "&#x60;"
  else if c = '=' then some "&#x3D;"
  else none

/-- One step of the regex replace in `escapeHtml`: a character in the
class `[&<>"'=/]` plus backtick is replaced by its `ENTITY_MAP` entry
(the regex character class and the map have exactly the same domain);
any other character is kept. -/
def escapeChar (c : Char) : List Char :=
  match ENTITY_MAP c with
  | some r => r.data
  | none => [c]

/-- `unsafe.replace(/[&<>"'=\/]|BACKTICK/g, s => ENTITY_MAP[s])` as a fold
over the character list: a global single-character regex replace
substitutes each matching character independently. -/
def escapeHtmlL : List Char → List Char
  | [] => []
  | c :: rest => escapeChar c ++ escapeHtmlL rest

/-- `escapeHtml(unsafe)` (src/sw.js lines 242-244). -/
def escapeHtml (s : String) : String := String.mk (escapeHtmlL s.data)

/-- The fixed character set escaped by `escapeHtml` (the domain of
`ENTITY_MAP`, equal to the regex character class). -/
def escapeSet : List Char :=
  ['&', '<', '>', Char.ofNat 34, Char.ofNat 39, '/', Char.ofNat 96, '=']

/-- Left inverse of `escapeHtmlL` on escaped text: decodes each of the
eight character references back to its character.  Used to prove that
`escapeHtml` is injective on strings over `escapeSet`. -/
def unescapeL : List Char → Option (List Char)
  | [] => some []
  | '&' :: 'a' :: 'm' :: 'p' :: ';' :: rest =>
    (unescapeL rest).map (fun l => '&' :: l)
  | '&' :: 'l' :: 't' :: ';' :: rest =>
    (unescapeL rest).map (fun l => '<' :: l)
  | '&' :: 'g' :: 't' :: ';' :: rest =>
    (unescapeL rest).map (fun l => '>' :: l)
  | '&' :: 'q' :: 'u' :: 'o' :: 't' :: ';' :: rest =>
    (unescapeL rest).map (fun l => Char.ofNat 34 :: l)
  | '&' :: '#' :: '3' :: '9' :: ';' :: rest =>
    (unescapeL rest).map (fun l => Char.ofNat 39 :: l)
  | '&' :: '#' :: 'x' :: '2' :: 'F' :: ';' :: rest =>
    (unescapeL rest).map (fun l => '/' :: l)
  | '&' :: '#' :: 'x' :: '6' :: '0' :: ';' :: rest =>
    (unescapeL rest).map (fun l => Char.ofNat 96 :: l)
  | '&' :: '#' :: 'x' :: '3' :: 'D' :: ';' :: rest =>
    (unescapeL rest).map (fun l => '=' :: l)
  | _ => none

/-- A named-cache storage (`caches`): a list of `(cacheName, entries)`
pairs in creation order, entries keyed by request.  `Req` and `Res` stand
for the opaque `Request` and `Response` values. -/
def cacheGet {Req Res : Type} [DecidableEq Req] :
    List (Req × Res) → Req → Option Res
  | [], _ => none
  | p :: rest, req => if p.1 = req then some p.2 else cacheGet rest req

/-- `caches.match(request)`: the first response stored for `request` in
any cache generation, searched in creation order. -/
def cachesMatch {Req Res : Type} [DecidableEq Req] :
    List (String × List (Req × Res)) → Req → Option Res
  | [], _ => none
  | (_, c) :: rest, req =>
    match cacheGet c req with
    | some r => some r
    | none => cachesMatch rest req

/-- `caches.open(name)` followed by `cache.put(req, res)`: the named
cache is created when absent; `put` overwrites any entry stored under the
same request, modelled by prepending the new entry (lookup takes the
first match). -/
def cachePut {Req Res : Type} :
    List (String × List (Req × Res)) → String → Req → Res →
      List (String × List (Req × Res))
  | [], name, req, res => [(name, [(req, res)])]
  | (n, c) :: rest, name, req, res =>
    if n = name then (n, (req, res) :: c) :: rest
    else (n, c) :: cachePut rest name req res

/-- The entries of the cache generation called `name` (empty when no such
cache exists). -/
def namedCache {Req Res : Type} :
    List (String × List (Req × Res)) → String → List (Req × Res)
  | [], _ => []
  | (n, c) :: rest, name => if n = name then c else namedCache rest name

/-- `respondWithCache(request)` (src/sw.js lines 150-160).  `fetch` is
the live network, passed as a function.  The result is the response
returned to the client, the cache storage afterwards, and the number of
network fetches performed: a hit returns the cached response with no
fetch and no cache change; a miss fetches once, puts a clone (identity on
the modelled immutable response) into `STATIC_CACHE_NAME` keyed by the
request, and returns the fetched response. -/
def respondWithCache {Req Res : Type} [DecidableEq Req]
    (caches : List (String × List (Req × Res))) (fetch : Req → Res)
    (request : Req) :
    Res × List (String × List (Req × Res)) × Nat :=
  match cachesMatch caches request with
  | some cacheRes => (cacheRes, caches, 0)
  | none =>
    let fetchRes := fetch request
    (fetchRes, cachePut caches STATIC_CACHE_NAME request fetchRes, 1)

/-- `cleanCache()` (src/sw.js lines 27-34) acting on the list of cache
generation names: every key different from `STATIC_CACHE_NAME` is
deleted; the value is the list of keys that remain afterwards. -/
def cleanCache (keys : List String) : List String :=
  keys.filter (fun key => key == STATIC_CACHE_NAME)

/-- The activate listener (src/sw.js lines 47-53) acting on the list of
cache generation names.  The listener runs
`e.waitUntil(async () => \x7b await cleanCache(); await self.clients.claim(); \x7d)`:
the async arrow function itself is passed to `waitUntil` and is never
invoked, so its body — including the `cleanCache()` call — never
executes, and the set of cache keys is left exactly as it was. -/
def activateRemaining (keys : List String) : List String := keys

/-- The response decision the fetch listener passes to `e.respondWith`. -/
inductive FetchDecision
  | spliced
  | redirectTo (location : String) (status : Nat)
  | cacheFirst
deriving DecidableEq

/-- `redirect(path)` (src/sw.js lines 178-180): `Response.redirect(path, 303)`. -/
def redirect (path : String) : FetchDecision :=
  FetchDecision.redirectTo path 303

/-- The fetch listener's routing (src/sw.js lines 246-273), reduced to
the response decision handed to `e.respondWith` (`none` = no branch
taken, the request falls through to the network).  `storageOutcome` is
the eventual result of the background persistence task scheduled with
`e.waitUntil` on the three mutation branches; the listener issues
`e.respondWith(redirect("/"))` without consulting it, which the
definition records by never inspecting the argument. -/
def fetchListenerResponse (path : String)
    (storageOutcome : Except JsError Unit) : Option FetchDecision :=
  if path = "/" ∨ path = "/index.html" then some FetchDecision.spliced
  else if path = "/create" then some (redirect "/")
  else if path = "/delete" then some (redirect "/")
  else if path = "/complete" then some (redirect "/")
  else if path ∈ assets then some FetchDecision.cacheFirst
  else none

/-- Split a character list at every occurrence of the single character
`sep` (the `&` separator of the urlencoded format). -/
def splitOnChar (sep : Char) : List Char → List (List Char)
  | [] => [[]]
  | c :: rest =>
    let r := splitOnChar sep rest
    if c = sep then [] :: r
    else (c :: r.headD []) :: r.tail

/-- Split a character list at the first occurrence of the single
character `sep`, keeping the entire remainder (the `=` separator inside
one urlencoded pair). -/
def splitFirstOnChar (sep : Char) : List Char → List Char × Option (List Char)
  | [] => ([], none)
  | c :: rest =>
    if c = sep then ([], some rest)
    else
      let p := splitFirstOnChar sep rest
      (c :: p.1, p.2)

/-- `new URLSearchParams(text)` as the ordered list of its entries: the
body is split on `&`, empty segments are dropped, and each segment is
split at its first `=` (a segment without `=` has the empty value).
Percent-decoding of escape sequences and of `+` is not modelled; the
bodies analysed here contain neither. -/
def parseURLSearchParams (text : String) : List (String × String) :=
  (splitOnChar '&' text.data).filterMap (fun seg =>
    match seg with
    | [] => none
    | _ =>
      let p := splitFirstOnChar '=' seg
      some (String.mk p.1, String.mk (p.2.getD [])))

/-- The `/create` background task (src/sw.js lines 253-260): read the
body text, build `URLSearchParams`, and run the promise chain
`.then(([title, _]) => title).then(([, value]) => escapeHtml(value))`.
The first destructuring iterates the params and takes the FIRST entry
(the `[key, value]` pair), or `undefined` when there are no entries; the
second destructuring then throws a `TypeError` on `undefined`, rejecting
the chain before anything is persisted.  Otherwise the first entry's
value — whatever its key — is escaped, a todo is created (`uuid` stands
for the `crypto.randomUUID()` result) and persisted with `set`. -/
def createHandlerTask (uuid : String) (body : String)
    (store : String → Option TodoItem) :
    Except JsError (String → Option TodoItem) :=
  let params := parseURLSearchParams body
  match params.head? with
  | none => Except.error JsError.typeError
  | some title =>
    let value := escapeHtml title.2
    let p := createTodo uuid value
    Except.ok (set p.1 p.2 store)

/-- A sample todo entity used by the concrete evaluations below. -/
def sampleTodo : TodoItem :=
  { id := some "1", title := some "t", completed := some false }

/-- Claim C1: for every key `k` and every update function that throws on
the stored value, `update k f` fails (the returned promise rejects with
the thrown value) and the store is unchanged: no write is committed under
`k` or any other key. -/
theorem update_rejects_and_leaves_store_unchanged {V : Type} (key : String)
    (updater : Option V → Except JsError V) (store : String → Option V)
    (e : JsError) (h : updater (store key) = Except.error e) :
    (update key updater store).1 = Except.error e ∧
    ∀ k, (update key updater store).2 k = store k := by
  simp [update, h]

/-- Witness for C1: a throwing updater on the empty store rejects with
the thrown error and commits nothing. -/
theorem update_rejects_and_leaves_store_unchanged_witness :
    (update "k" (fun _ => Except.error JsError.typeError)
      (fun _ => (none : Option TodoItem))).1 = Except.error JsError.typeError ∧
    ∀ k, (update "k" (fun _ => Except.error JsError.typeError)
      (fun _ => (none : Option TodoItem))).2 k = none :=
  update_rejects_and_leaves_store_unchanged "k"
    (fun _ => Except.error JsError.typeError) (fun _ => none)
    JsError.typeError rfl

/-- Claim C8: `completeTodo` returns a record equal to its input in every
field except `completed`, which becomes `true`; the input is not mutated
(the embedding is pure and the spread builds a fresh record); and the
operation is idempotent. -/
theorem completeTodo_spec (e : TodoItem) :
    (completeTodo (some e)).id = e.id ∧
    (completeTodo (some e)).title = e.title ∧
    (completeTodo (some e)).completed = some true ∧
    completeTodo (some (completeTodo (some e))) = completeTodo (some e) := by
  cases e
  simp [completeTodo]

/-- Claim C10: handling `/complete?id=k` for a key `k` that is not in the
store (the fetch listener runs `update(id, completeTodo)`) does not fail
and is not a no-op: it inserts the record with only `completed: true`
under `k` — no `id` and no `title` field — leaving other keys alone. -/
theorem update_missing_key_inserts_completed
    (store : String → Option TodoItem) (k : String) (h : store k = none) :
    (update k (fun t => Except.ok (completeTodo t)) store).1 = Except.ok () ∧
    (update k (fun t => Except.ok (completeTodo t)) store).2 k =
      some { id := none, title := none, completed := some true } ∧
    (update k (fun t => Except.ok (completeTodo t)) store).2 k ≠ store k ∧
    ∀ k', k' ≠ k →
      (update k (fun t => Except.ok (completeTodo t)) store).2 k' = store k' := by
  refine ⟨by simp [update], ?_, ?_, ?_⟩
  · simp [update, h, completeTodo]
  · simp [update, h, completeTodo]
  · intro k' hk'
    simp [update, hk']

/-- Witness for C10: completing the missing key "a" in the empty store
succeeds and inserts the title-less, id-less completed record. -/
theorem update_missing_key_inserts_completed_witness :
    (update "a" (fun t => Except.ok (completeTodo t))
      (fun _ => (none : Option TodoItem))).1 = Except.ok () ∧
    (update "a" (fun t => Except.ok (completeTodo t))
      (fun _ => (none : Option TodoItem))).2 "a" =
      some { id := none, title := none, completed := some true } ∧
    (update "a" (fun t => Except.ok (completeTodo t))
      (fun _ => (none : Option TodoItem))).2 "a" ≠ none ∧
    ∀ k', k' ≠ "a" →
      (update "a" (fun t => Except.ok (completeTodo t))
        (fun _ => (none : Option TodoItem))).2 k' = none :=
  update_missing_key_inserts_completed (fun _ => none) "a" rfl

/-- Claim C4: for the paths `/create`, `/delete` and `/complete` the
fetch listener responds with a 303 redirect to "/", and the response is
the same whatever the outcome of the storage operation scheduled in the
background — the redirect is not sequenced after the write. -/
theorem mutation_paths_redirect_independent_of_storage (path : String)
    (h : path = "/create" ∨ path = "/delete" ∨ path = "/complete") :
    (∀ o, fetchListenerResponse path o =
      some (FetchDecision.redirectTo "/" 303)) ∧
    ∀ o₁ o₂, fetchListenerResponse path o₁ = fetchListenerResponse path o₂ := by
  have hall : ∀ o, fetchListenerResponse path o =
      some (FetchDecision.redirectTo "/" 303) := by
    intro o
    rcases h with h | h | h <;> subst h <;>
      simp [fetchListenerResponse, redirect]
  exact ⟨hall, fun o₁ o₂ => (hall o₁).trans (hall o₂).symm⟩

/-- Witness for C4: a `/create` request is answered with the 303 redirect
to "/" even when the background storage task fails. -/
theorem mutation_paths_redirect_independent_of_storage_witness :
    fetchListenerResponse "/create" (Except.error JsError.typeError) =
      some (FetchDecision.redirectTo "/" 303) :=
  (mutation_paths_redirect_independent_of_storage "/create" (Or.inl rfl)).1
    (Except.error JsError.typeError)

/-- Claim C6 evaluation: activation does not purge stale cache
generations.  With two generations present — a stale `static-cache_0.0.0`
and the current `static-cache_0.0.1` — the activate listener leaves both
in place (its async callback is passed to `waitUntil` uninvoked), even
though the stale name differs from the current tag and the `cleanCache`
body it was meant to run would have left exactly the current one. -/
theorem activate_never_purges_stale_caches :
    activateRemaining ["static-cache_0.0.0", STATIC_CACHE_NAME] =
      ["static-cache_0.0.0", STATIC_CACHE_NAME] ∧
    "static-cache_0.0.0" ≠ STATIC_CACHE_NAME ∧
    cleanCache ["static-cache_0.0.0", STATIC_CACHE_NAME] =
      [STATIC_CACHE_NAME] := by
  refine ⟨rfl, ?_, ?_⟩ <;> decide

/-- After `cachePut`, the named cache generation maps the request to the
stored response. -/
theorem cacheGet_namedCache_cachePut {Req Res : Type} [DecidableEq Req]
    (cs : List (String × List (Req × Res))) (name : String) (req : Req)
    (res : Res) :
    cacheGet (namedCache (cachePut cs name req res) name) req = some res := by
  induction cs with
  | nil => simp [cachePut, namedCache, cacheGet]
  | cons p rest ih =>
    by_cases hn : p.1 = name
    · cases p
      simp_all [cachePut, namedCache, cacheGet]
    · cases p
      simp_all [cachePut, namedCache]

/-- Claim C5: `respondWithCache` is cache-first.  A request found in the
cache storage is answered with the cached response, with no network fetch
and no cache change; a request not found is fetched exactly once, the
response is stored in the current cache generation `STATIC_CACHE_NAME`
keyed by the request, and the fetched response is returned. -/
theorem respondWithCache_cache_first {Req Res : Type} [DecidableEq Req]
    (caches : List (String × List (Req × Res))) (fetch : Req → Res)
    (request : Req) :
    (∀ r, cachesMatch caches request = some r →
      respondWithCache caches fetch request = (r, caches, 0)) ∧
    (cachesMatch caches request = none →
      respondWithCache caches fetch request =
        (fetch request,
          cachePut caches STATIC_CACHE_NAME request (fetch request), 1) ∧
      cacheGet
        (namedCache
          (cachePut caches STATIC_CACHE_NAME request (fetch request))
          STATIC_CACHE_NAME) request = some (fetch request)) := by
  constructor
  · intro r hr
    simp [respondWithCache, hr]
  · intro hmiss
    exact ⟨by simp [respondWithCache, hmiss],
      cacheGet_namedCache_cachePut caches STATIC_CACHE_NAME request
        (fetch request)⟩

/-- Witness for C5: on the empty cache storage the request "/" misses, is
fetched once, stored under the current generation, and the fetched
response is returned. -/
theorem respondWithCache_cache_first_witness :
    respondWithCache ([] : List (String × List (String × Nat)))
        (fun _ => 7) "/" =
      (7, cachePut [] STATIC_CACHE_NAME "/" 7, 1) ∧
    cacheGet (namedCache (cachePut [] STATIC_CACHE_NAME "/" 7)
      STATIC_CACHE_NAME) "/" = some 7 :=
  (respondWithCache_cache_first [] (fun _ => 7) "/").2 rfl

/-- Counterexample to claim C2: the shell is NOT returned unchanged when
the item list is empty (an empty array is truthy, so the template
wrapping runs), nor when the marker is absent but a non-empty item list
is supplied (the missing tail interpolates as "undefined"). -/
theorem splice_changes_shell_counterexample :
    spliceResponseWithData "<p><!-- lazy --></p>" (some []) ≠
      "<p><!-- lazy --></p>" ∧
    spliceResponseWithData "<p>" (some [sampleTodo]) ≠ "<p>" := by
  constructor <;> decide

/-- Claim C2 as amended: `spliceResponseWithData` returns the shell
unchanged exactly when the item list argument is absent
(`undefined`/`null`); whenever a list is present — even an empty one —
the template wrapping is applied, and an absent marker leaves the whole
shell as the head with the literal text "undefined" in tail position. -/
theorem splice_unchanged_only_when_data_absent (S : String)
    (I : List TodoItem) (h : jsSplitTwo lazyBoundary S = (S, none)) :
    spliceResponseWithData S none = S ∧
    spliceResponseWithData S (some I) =
      "\n    " ++ S ++ "\n    " ++ generateTodos I ++ "\n    " ++
        "undefined" ++ "\n  " := by
  refine ⟨rfl, ?_⟩
  simp [spliceResponseWithData, h, jsStr]

/-- Witness for amended C2: the marker-free shell "<p>" is returned
unchanged for an absent list, and re-wrapped with an "undefined" tail for
an empty list. -/
theorem splice_unchanged_only_when_data_absent_witness :
    spliceResponseWithData "<p>" none = "<p>" ∧
    spliceResponseWithData "<p>" (some []) =
      "\n    " ++ "<p>" ++ "\n    " ++ generateTodos [] ++ "\n    " ++
        "undefined" ++ "\n  " :=
  splice_unchanged_only_when_data_absent "<p>" [] (by decide)

/-- Counterexample to claim C3: for the shell `"<a><!-- lazy --><b>"` and
one entity, the result does not equal `"<a>" ++ renderList ++ "<b>"` —
the template literal inserts its own whitespace around each piece (the
result even starts with a newline, not with `<a>`). -/
theorem splice_not_verbatim_counterexample :
    spliceResponseWithData "<a><!-- lazy --><b>" (some [sampleTodo]) ≠
      "<a>" ++ generateTodos [sampleTodo] ++ "<b>" := by
  decide

/-- Claim C3 as amended: for a shell splitting at the marker into head
`H` (before the first marker occurrence) and tail `T` (up to the second
occurrence, or the rest when there is only one), and any item list `I`,
the splice result is `H` and `T` wrapped in the template's whitespace
around the rendered list:
`"\n    " ++ H ++ "\n    " ++ generateTodos I ++ "\n    " ++ T ++ "\n  "`. -/
theorem splice_wraps_pieces_in_template (S H T : String)
    (I : List TodoItem) (h : jsSplitTwo lazyBoundary S = (H, some T)) :
    spliceResponseWithData S (some I) =
      "\n    " ++ H ++ "\n    " ++ generateTodos I ++ "\n    " ++ T ++
        "\n  " := by
  simp [spliceResponseWithData, h, jsStr]

/-- Witness for amended C3: the shell `"<a><!-- lazy --><b>"` with one
entity yields `"\n    <a>\n    " ++ renderList ++ "\n    <b>\n  "`. -/
theorem splice_wraps_pieces_in_template_witness :
    spliceResponseWithData "<a><!-- lazy --><b>" (some [sampleTodo]) =
      "\n    " ++ "<a>" ++ "\n    " ++ generateTodos [sampleTodo] ++
        "\n    " ++ "<b>" ++ "\n  " :=
  splice_wraps_pieces_in_template "<a><!-- lazy --><b>" "<a>" "<b>"
    [sampleTodo] (by decide)

/-- Counterexample to claim C9: a `/create` request whose body has no
fields at all (lacking `title` in particular) does not persist anything
and does not complete normally — the first-entry destructuring of the
empty parameter list yields `undefined`, whose own destructuring throws a
`TypeError` that rejects the background task. -/
theorem create_missing_title_rejects_counterexample :
    createHandlerTask "u" "" (fun _ => none) =
      Except.error JsError.typeError := by
  rfl

/-- Claim C9 as amended: the `/create` handler never looks up the `title`
key — it destructures the FIRST form entry.  For every body: when the
body parses to no entries at all, the background task rejects with a
`TypeError` and persists nothing; when the body parses to a first entry
`(k, v)` — whatever the key `k`, in particular for bodies lacking a
`title` field — the task completes normally and persists a todo whose
title is that first field's escaped value. -/
theorem createHandlerTask_first_field_behaviour (uuid body : String)
    (store : String → Option TodoItem) :
    (parseURLSearchParams body = [] →
      createHandlerTask uuid body store = Except.error JsError.typeError) ∧
    (∀ k v rest, parseURLSearchParams body = (k, v) :: rest →
      createHandlerTask uuid body store =
        Except.ok (set uuid
          { id := some uuid, title := some (escapeHtml v),
            completed := some false }
          store)) := by
  constructor
  · intro h
    simp [createHandlerTask, h]
  · intro k v rest h
    simp [createHandlerTask, h, createTodo]

/-- Witness for amended C9: the empty body parses to no entries and the
task rejects; the body `foo=bar` parses to the first entry
`("foo", "bar")` and the task persists the todo titled `"bar"`. -/
theorem createHandlerTask_first_field_behaviour_witness :
    createHandlerTask "u" "" (fun _ => none) =
      Except.error JsError.typeError ∧
    createHandlerTask "u" "foo=bar" (fun _ => none) =
      Except.ok (set "u"
        { id := some "u", title := some (escapeHtml "bar"),
          completed := some false }
        (fun _ => none)) :=
  ⟨(createHandlerTask_first_field_behaviour "u" "" (fun _ => none)).1 rfl,
    (createHandlerTask_first_field_behaviour "u" "foo=bar"
      (fun _ => none)).2 "foo" "bar" [] rfl⟩

theorem data_mk (l : List Char) : (String.mk l).data = l := rfl

theorem singleton_data (c : Char) : (String.singleton c).data = [c] := rfl

theorem escapeHtmlL_append (a b : List Char) :
    escapeHtmlL (a ++ b) = escapeHtmlL a ++ escapeHtmlL b := by
  induction a with
  | nil => rfl
  | cons c rest ih => simp [escapeHtmlL, ih, List.append_assoc]

theorem entity_map_eq_none {c : Char} (h : c ∉ escapeSet) :
    ENTITY_MAP c = none := by
  simp only [escapeSet, List.mem_cons, List.not_mem_nil, or_false,
    not_or] at h
  obtain ⟨h1, h2, h3, h4, h5, h6, h7, h8⟩ := h
  simp [ENTITY_MAP, h1, h2, h3, h4, h5, h6, h7, h8]

theorem escapeHtmlL_id_of_no_escape (l : List Char)
    (h : ∀ c ∈ l, c ∉ escapeSet) : escapeHtmlL l = l := by
  induction l with
  | nil => rfl
  | cons c rest ih =>
    have hc := entity_map_eq_none (h c (List.mem_cons_self c rest))
    simp [escapeHtmlL, escapeChar, hc,
      ih (fun d hd => h d (List.mem_cons_of_mem c hd))]

theorem unescape_ref (c : Char) (hc : c ∈ escapeSet) (x : List Char) :
    unescapeL (escapeChar c ++ x) = (unescapeL x).map (fun l => c :: l) := by
  fin_cases hc <;> rfl

theorem unescape_escape (l : List Char) (h : ∀ c ∈ l, c ∈ escapeSet) :
    unescapeL (escapeHtmlL l) = some l := by
  induction l with
  | nil => rfl
  | cons c rest ih =>
    rw [escapeHtmlL, unescape_ref c (h c (List.mem_cons_self c rest)),
      ih (fun d hd => h d (List.mem_cons_of_mem c hd))]
    rfl

/-- Claim C7: `escapeHtml` (i) replaces an occurrence of each character
of the fixed set — wherever it occurs — by its character reference,
acting homomorphically on the surrounding text; (ii) is the identity on
every string containing none of the eight characters; and (iii) is
injective on strings made up entirely of characters of the set. -/
theorem escapeHtml_spec :
    (∀ (a b : String) (c : Char) (r : String), ENTITY_MAP c = some r →
      escapeHtml (a ++ String.singleton c ++ b) =
        escapeHtml a ++ r ++ escapeHtml b) ∧
    (∀ s : String, (∀ c ∈ s.data, c ∉ escapeSet) → escapeHtml s = s) ∧
    (∀ s t : String, (∀ c ∈ s.data, c ∈ escapeSet) →
      (∀ c ∈ t.data, c ∈ escapeSet) → escapeHtml s = escapeHtml t → s = t) := by
  refine ⟨?_, ?_, ?_⟩
  · intro a b c r h
    apply String.ext
    simp [escapeHtml, String.data_append, data_mk, singleton_data,
      escapeHtmlL_append, escapeHtmlL, escapeChar, h, List.append_assoc]
  · intro s hs
    apply String.ext
    simp [escapeHtml, data_mk, escapeHtmlL_id_of_no_escape s.data hs]
  · intro s t hs ht heq
    apply String.ext
    have h1 := unescape_escape s.data hs
    have h2 := unescape_escape t.data ht
    have hdata : escapeHtmlL s.data = escapeHtmlL t.data :=
      congrArg String.data heq
    rw [hdata, h2] at h1
    exact (Option.some.inj h1).symm

/-- Witness for C7: the ampersand in the middle of `"a&b"` is replaced by
`"&amp;"` with the surroundings escaped independently, the
escape-free string `"ab"` is fixed, and injectivity applied at `"<"`. -/
theorem escapeHtml_spec_witness :
    escapeHtml ("a" ++ String.singleton '&' ++ "b") =
      escapeHtml "a" ++ "&amp;" ++ escapeHtml "b" ∧
    escapeHtml "ab" = "ab" ∧
    ("<" : String) = "<" :=
  ⟨escapeHtml_spec.1 "a" "b" '&' "&amp;" rfl,
    escapeHtml_spec.2.1 "ab" (by decide),
    escapeHtml_spec.2.2 "<" "<" (by decide) (by decide) rfl⟩

end SWTodo
